import Mathlib

/-!
Shallow embedding of the course search pipeline in `rag_search_system.py`
(class `CourseSearchSystem`) and verification of its specification.

Modelling conventions:
* Python exceptions are modelled by `Except PyError`; an uncaught exception
  is an `.error` result, a `try/except Exception` block catches every
  `.error` of its body.
* A Python dict access `d['k']` on a possibly-missing key is `dictGet`,
  which raises `.keyError` when the key is absent.
* The external backends (the `RetrievalQA` chain and the `Chroma` vector
  store) are opaque fallible functions.  Query-time entry points are given
  an instrumented variant (`search_coursesT`, `similar_coursesT`) that also
  returns the list of backend calls performed, so that "no retrieval or
  generation call is made" is a provable statement; the uninstrumented
  functions are their first projections.
-/

namespace RagSearch

/-- A raised Python exception, by class. -/
inductive PyError where
  | keyError (key : String)
  | valueError (msg : String)
  | attributeError (msg : String)
  | other (msg : String)
deriving Repr, DecidableEq

/-- Metadata dict attached to a langchain `Document`; `load_course_data`
always populates these four keys.  `Option` models `dict.get`, which
returns `None` for an absent key. -/
structure Metadata where
  title : Option String
  url : Option String
  price : Option String
  instructor : Option String
deriving Repr, DecidableEq

/-- A langchain `Document`: page content plus metadata. -/
structure Document where
  page_content : String
  metadata : Metadata
deriving Repr, DecidableEq

/-- One record of the dicts built by `similar_courses`
(keys `title`, `url`, `price`, `instructor`). -/
structure CourseInfo where
  title : Option String
  url : Option String
  price : Option String
  instructor : Option String
deriving Repr, DecidableEq

/-- The dict returned by `search_courses`
(keys `"Search Result"` and `"Similar Courses"`). -/
structure QueryResult where
  searchResult : String
  similarCourses : List CourseInfo
deriving Repr, DecidableEq

/-- The `RetrievalQA` chain: its `run` method embeds the query, retrieves
and synthesizes an answer; any of that may raise. -/
structure RetrievalQA where
  run : String → Except PyError String

/-- The `Chroma` vector store: `similarity_search(query, k)` embeds the
query and returns the nearest documents; it may raise. -/
structure Chroma where
  similarity_search : String → Nat → Except PyError (List Document)

/-- The mutable state of a `CourseSearchSystem` instance: `__init__` sets
`self.vector_store = None` and `self.qa_chain = None`. -/
structure CourseSearchSystem where
  vector_store : Option Chroma
  qa_chain : Option RetrievalQA

/-- A ghost trace event: one call into an external backend. -/
inductive CallEvent where
  | qaRun (query : String)
  | vsSearch (query : String) (k : Nat)
deriving Repr, DecidableEq

/-! ## The query classifier `_is_course_related` -/

/-- Python `str.lower()` (ASCII case mapping, as exercised here). -/
def pyLower (s : String) : String := ⟨s.data.map Char.toLower⟩

/-- `needle` is a prefix of `hay` (character lists). -/
def startsWithL : List Char → List Char → Bool
  | [], _ => true
  | _ :: _, [] => false
  | a :: as, b :: bs => a == b && startsWithL as bs

/-- `needle` occurs contiguously somewhere in `hay`: Python `needle in hay`. -/
def occursIn (needle : List Char) : List Char → Bool
  | [] => needle.isEmpty
  | b :: bs => startsWithL needle (b :: bs) || occursIn needle bs

/-- Python substring test `needle in hay` on strings. -/
def strContains (hay needle : String) : Bool := occursIn needle.data hay.data

/-- The fixed keyword list of `_is_course_related`. -/
def course_keywords : List String :=
  ["course", "learn", "tutorial", "class", "training", "education"]

/-- `CourseSearchSystem._is_course_related`:
`any(keyword in query.lower() for keyword in course_keywords)`. -/
def is_course_related (query : String) : Bool :=
  course_keywords.any (fun keyword => strContains (pyLower query) keyword)

/-! ## Correctness of the substring scan -/

theorem startsWithL_iff (n : List Char) :
    ∀ h : List Char, startsWithL n h = true ↔ ∃ s, h = n ++ s := by
  induction n with
  | nil => intro h; simp [startsWithL]
  | cons a as ih =>
      intro h
      cases h with
      | nil => simp [startsWithL]
      | cons b bs =>
          simp only [startsWithL, Bool.and_eq_true, beq_iff_eq, ih, List.cons_append]
          constructor
          · rintro ⟨rfl, s, rfl⟩; exact ⟨s, rfl⟩
          · rintro ⟨s, hs⟩
            injection hs with h1 h2
            exact ⟨h1.symm, s, h2⟩

theorem occursIn_iff (n : List Char) :
    ∀ h : List Char, occursIn n h = true ↔ ∃ p s, h = p ++ n ++ s := by
  intro h
  induction h with
  | nil =>
      simp only [occursIn, List.isEmpty_iff]
      constructor
      · rintro rfl; exact ⟨[], [], rfl⟩
      · rintro ⟨p, s, hs⟩
        rcases List.append_eq_nil.mp hs.symm with ⟨h1, h2⟩
        exact (List.append_eq_nil.mp h1).2
  | cons b bs ih =>
      simp only [occursIn, Bool.or_eq_true, startsWithL_iff, ih]
      constructor
      · rintro (⟨s, hs⟩ | ⟨p, s, hs⟩)
        · exact ⟨[], s, by simp [hs]⟩
        · exact ⟨b :: p, s, by simp [hs]⟩
      · rintro ⟨p, s, hs⟩
        cases p with
        | nil => exact Or.inl ⟨s, by simpa using hs⟩
        | cons c p' =>
            injection hs with h1 h2
            exact Or.inr ⟨p', s, h2⟩

/-! ## `load_course_data`: normalizing raw course records -/

/-- A raw course record as parsed from `courses_data.json`: a dict whose
keys may be absent (`none`). -/
structure RawCourse where
  title : Option String
  description : Option String
  instructor : Option String
  price : Option String
  curriculum : Option (List String)
  url : Option String
deriving Repr, DecidableEq

/-- Python `course['key']`: the value when present, `KeyError` otherwise. -/
def dictGet {α : Type} (v : Option α) (key : String) : Except PyError α :=
  match v with
  | some x => .ok x
  | none => .error (.keyError key)

/-- Python `' | '.join(l)`. -/
def joinPipe : List String → String
  | [] => ""
  | [x] => x
  | x :: y :: xs => x ++ " | " ++ joinPipe (y :: xs)

/-- The f-string template of `load_course_data` (exact whitespace of the
triple-quoted literal in the source). -/
def courseContent (title description instructor price curriculumJoined url : String) :
    String :=
  "\n            Title: " ++ title ++
  "\n            Description: " ++ description ++
  "\n            Instructor: " ++ instructor ++
  "\n            Price: " ++ price ++
  "\n            Curriculum: " ++ curriculumJoined ++
  "\n            URL: " ++ url ++
  "\n            "

/-- The per-record body of the loop in `load_course_data`: build the
combined text (accessing `title`, `description`, `instructor`, `price`,
`curriculum`, `url` in f-string order, raising `KeyError` at the first
absent key) and the `Document` with its four metadata fields. -/
def processCourse (course : RawCourse) : Except PyError Document := do
  let title ← dictGet course.title "title"
  let description ← dictGet course.description "description"
  let instructor ← dictGet course.instructor "instructor"
  let price ← dictGet course.price "price"
  let curriculum ← dictGet course.curriculum "curriculum"
  let url ← dictGet course.url "url"
  .ok { page_content := courseContent title description instructor price (joinPipe curriculum) url
        metadata := { title := some title, url := some url,
                      price := some price, instructor := some instructor } }

/-- `CourseSearchSystem.load_course_data` after JSON parsing: the loop over
`courses`, appending each built document; an exception in any iteration
aborts the whole call with no result list. -/
def load_course_data : List RawCourse → Except PyError (List Document)
  | [] => .ok []
  | c :: rest =>
    match processCourse c with
    | .error e => .error e
    | .ok doc =>
      match load_course_data rest with
      | .error e => .error e
      | .ok docs => .ok (doc :: docs)

/-! ## The chunker

Modelled from the spec: the repository configures an external recursive
character splitter (`RecursiveCharacterTextSplitter(chunk_size=500,
chunk_overlap=50)` in `__init__`, applied by `create_vector_store`), whose
splitting algorithm is not part of the repository's sources.  Following the
spec's Chunker contract, it is modelled as deterministic greedy splitting
into windows of at most `maxSize` characters, consecutive windows sharing
`overlap` characters, with a guaranteed step of at least one character so
the splitter always makes progress. -/

/-- Modelled from the spec: greedy chunking of a character sequence into
windows of length at most `maxSize`, stepping `maxSize - overlap` (at least
one) characters between window starts. -/
def chunkText (maxSize overlap : Nat) (s : List Char) : List (List Char) :=
  if _h : s.length ≤ maxSize then [s]
  else s.take maxSize :: chunkText maxSize overlap (s.drop (max 1 (maxSize - overlap)))
termination_by s.length
decreasing_by
  simp only [List.length_drop]
  omega

/-- The chunk size configured in `CourseSearchSystem.__init__`. -/
def chunk_size : Nat := 500

/-- The chunk overlap configured in `CourseSearchSystem.__init__`. -/
def chunk_overlap : Nat := 50

/-- Splitting one document's text with the configured splitter. -/
def split_text (s : String) : List String :=
  (chunkText chunk_size chunk_overlap s.data).map (fun l => ⟨l⟩)

/-! ## Query-time entry points -/

/-- Extraction of the four metadata fields done by the list comprehension in
`similar_courses` (`doc.metadata.get(...)` for the four keys). -/
def extract_course (doc : Document) : CourseInfo :=
  { title := doc.metadata.title, url := doc.metadata.url,
    price := doc.metadata.price, instructor := doc.metadata.instructor }

/-- The `AttributeError` raised by `self.vector_store.similarity_search`
when `self.vector_store` is still `None`. -/
def noneTypeMsg : String := "NoneType object has no attribute similarity_search"

/-- `CourseSearchSystem.similar_courses(course_title, n=3)`, instrumented
with the list of backend calls it performs.  Dereferencing an
uninitialized (`None`) vector store raises `AttributeError` before any
search call. -/
def similar_coursesT (sys : CourseSearchSystem) (course_title : String) (n : Nat) :
    Except PyError (List CourseInfo) × List CallEvent :=
  match sys.vector_store with
  | none => (.error (.attributeError noneTypeMsg), [])
  | some vs =>
    match vs.similarity_search course_title n with
    | .error e => (.error e, [.vsSearch course_title n])
    | .ok results => (.ok (results.map extract_course), [.vsSearch course_title n])

/-- `CourseSearchSystem.similar_courses`: result only. -/
def similar_courses (sys : CourseSearchSystem) (course_title : String) (n : Nat) :
    Except PyError (List CourseInfo) :=
  (similar_coursesT sys course_title n).1

/-- The guard message of `search_courses` when the QA chain is not set up. -/
def notInitializedMsg : String := "QA chain not initialized. Run setup_qa_chain first."

/-- The fixed rejection message for out-of-domain queries. -/
def rejectionMsg : String := "Please enter a query related to courses."

/-- The fixed user-facing error message of the `except` handler. -/
def errorMsg : String := "An error occurred while processing your query."

/-- `CourseSearchSystem.search_courses(query)`, instrumented with the list
of backend calls it performs.  The `if not self.qa_chain` guard raises
`ValueError` before the `try` block; inside the `try`, an out-of-domain
query returns the rejection result without touching any backend, otherwise
`self.qa_chain.run(query)` then `self.similar_courses(query, n=3)` run, and
any exception from either is caught by `except Exception` and converted to
the fixed error result. -/
def search_coursesT (sys : CourseSearchSystem) (query : String) :
    Except PyError QueryResult × List CallEvent :=
  match sys.qa_chain with
  | none => (.error (.valueError notInitializedMsg), [])
  | some qa =>
    if is_course_related query then
      match qa.run query with
      | .error _ => (.ok { searchResult := errorMsg, similarCourses := [] }, [.qaRun query])
      | .ok result =>
        match similar_coursesT sys query 3 with
        | (.error _, tr) =>
            (.ok { searchResult := errorMsg, similarCourses := [] }, .qaRun query :: tr)
        | (.ok similar, tr) =>
            (.ok { searchResult := result, similarCourses := similar }, .qaRun query :: tr)
    else
      (.ok { searchResult := rejectionMsg, similarCourses := [] }, [])

/-- `CourseSearchSystem.search_courses`: result only. -/
def search_courses (sys : CourseSearchSystem) (query : String) :
    Except PyError QueryResult :=
  (search_coursesT sys query).1

/-! ## Concrete sample data for witnesses -/

/-- A fully-populated raw course record. -/
def sampleRaw : RawCourse :=
  { title := some "Python for Data Science", description := some "Intro course",
    instructor := some "Ada", price := some "₹999",
    curriculum := some ["Basics", "Pandas"], url := some "https://example.com/py" }

/-- The document `processCourse` builds from `sampleRaw`. -/
def sampleDoc : Document :=
  { page_content :=
      courseContent "Python for Data Science" "Intro course" "Ada" "₹999"
        (joinPipe ["Basics", "Pandas"]) "https://example.com/py",
    metadata := { title := some "Python for Data Science",
                  url := some "https://example.com/py",
                  price := some "₹999", instructor := some "Ada" } }

/-! ## Helper lemmas -/

theorem string_append_assoc (a b c : String) : a ++ b ++ c = a ++ (b ++ c) := by
  rcases a with ⟨a⟩; rcases b with ⟨b⟩; rcases c with ⟨c⟩
  exact congrArg String.mk (List.append_assoc a b c)

theorem chunkText_length_le (maxSize overlap : Nat) (s : List Char) :
    ∀ c ∈ chunkText maxSize overlap s, c.length ≤ maxSize := by
  induction s using chunkText.induct maxSize overlap with
  | case1 s h =>
      intro c hc
      rw [chunkText] at hc
      simp only [dif_pos h] at hc
      simp only [List.mem_singleton] at hc
      subst hc; exact h
  | case2 s h ih =>
      intro c hc
      rw [chunkText] at hc
      simp only [dif_neg h] at hc
      rcases List.mem_cons.mp hc with rfl | hmem
      · simp
      · exact ih c hmem

theorem chunkText_ne_nil (maxSize overlap : Nat) (s : List Char) :
    chunkText maxSize overlap s ≠ [] := by
  rw [chunkText]
  split <;> simp

/-! ## The claims -/

/-- C1: for every in-domain query (classifier true) on a system whose QA
chain is set up, if the QA chain's `run` (retrieval + synthesis) raises, or
the subsequent `similar_courses` lookup raises, then `search_courses`
catches the exception and returns the fixed error message with an empty
similar-courses list; no exception reaches the caller. -/
theorem C1_failure_contained (sys : CourseSearchSystem) (q : String) (qa : RetrievalQA)
    (hqa : sys.qa_chain = some qa) (hdom : is_course_related q = true)
    (hfail : (∃ e, qa.run q = .error e) ∨ (∃ e, (similar_coursesT sys q 3).1 = .error e)) :
    search_courses sys q = .ok { searchResult := errorMsg, similarCourses := [] } := by
  unfold search_courses search_coursesT
  rw [hqa]
  simp only [hdom, if_true]
  cases hrun : qa.run q with
  | error e => rfl
  | ok r =>
      rcases hfail with ⟨e, he⟩ | ⟨e, he⟩
      · rw [hrun] at he; cases he
      · rcases hsm : similar_coursesT sys q 3 with ⟨res, tr⟩
        rw [hsm] at he
        simp only at he
        cases res with
        | error e2 => simp only [hsm]
        | ok l => cases he

/-- C1 witness: with a generation backend that raises on every call,
`search_courses "learn python"` still returns the fixed error result. -/
theorem C1_failure_contained_witness :
    search_courses
        { vector_store := none,
          qa_chain := some { run := fun _ => .error (.other "backend failure") } }
        "learn python"
      = .ok { searchResult := errorMsg, similarCourses := [] } :=
  C1_failure_contained _ "learn python" _ rfl (by decide)
    (.inl ⟨.other "backend failure", rfl⟩)

/-- C2: for every query the classifier judges out-of-domain, on a set-up
system, `search_courses` returns the fixed rejection message with an empty
similar-courses list and performs no backend call at all (empty call
trace: no retrieval, no embedding, no generation). -/
theorem C2_rejection_no_calls (sys : CourseSearchSystem) (q : String) (qa : RetrievalQA)
    (hqa : sys.qa_chain = some qa) (hdom : is_course_related q = false) :
    search_coursesT sys q =
      (.ok { searchResult := rejectionMsg, similarCourses := [] }, []) := by
  unfold search_coursesT
  rw [hqa]
  simp [hdom]

/-- C2 witness: `search_courses "what's for lunch"` is rejected with the
fixed message and an empty call trace. -/
theorem C2_rejection_no_calls_witness :
    search_coursesT
        { vector_store := none, qa_chain := some { run := fun _ => .ok "answer" } }
        "what's for lunch"
      = (.ok { searchResult := rejectionMsg, similarCourses := [] }, []) :=
  C2_rejection_no_calls _ "what's for lunch" _ rfl (by decide)

/-- C3: `_is_course_related q` is true iff one of the six fixed keywords
occurs as a substring of the lowercased query (case-insensitive substring
match); in particular it is true on "Tell me about machine learning
courses" and false on "What's the weather today?". -/
theorem C3_classifier_keyword_substring :
    (∀ q : String, is_course_related q = true ↔
      ∃ kw ∈ course_keywords, ∃ p s, (pyLower q).data = p ++ kw.data ++ s)
    ∧ is_course_related "Tell me about machine learning courses" = true
    ∧ is_course_related "What's the weather today?" = false := by
  refine ⟨fun q => ?_, by decide, by decide⟩
  simp only [is_course_related, List.any_eq_true, strContains, occursIn_iff]

/-- C4: when the vector store is initialized and its similarity search for
`t` with `k = n` returns `docs` (with the index's contract `docs.length ≤ n`),
`similar_courses` returns, in the same order, exactly one record per
returned document holding verbatim its four metadata fields
(`title`, `url`, `price`, `instructor`); its call trace is the single
similarity-search call — no classification gate, no generation call. -/
theorem C4_similar_courses_projection (sys : CourseSearchSystem) (vs : Chroma)
    (t : String) (n : Nat) (docs : List Document)
    (hvs : sys.vector_store = some vs)
    (hsearch : vs.similarity_search t n = .ok docs)
    (hlen : docs.length ≤ n) :
    similar_coursesT sys t n = (.ok (docs.map extract_course), [.vsSearch t n])
    ∧ (docs.map extract_course).length ≤ n := by
  constructor
  · simp only [similar_coursesT, hvs, hsearch]
  · simpa using hlen

/-- C4 witness: a one-document store queried with an out-of-domain text
(no gate) returns that document's metadata record, with only the search
call in the trace. -/
theorem C4_similar_courses_projection_witness :
    similar_coursesT
        { vector_store := some { similarity_search := fun _ _ => .ok [sampleDoc] },
          qa_chain := none }
        "What's the weather today?" 3
      = (.ok [extract_course sampleDoc], [.vsSearch "What's the weather today?" 3])
    ∧ ([sampleDoc].map extract_course).length ≤ 3 :=
  C4_similar_courses_projection _ _ "What's the weather today?" 3 [sampleDoc]
    rfl rfl (by decide)

/-- C5: a raw record missing any of the required fields `title`,
`description`, `instructor`, `price` or `url` makes the per-record
processing of `load_course_data` raise a missing-key error (the code's
realization of the spec's `ValidationError`), so no document is produced
for it; and the whole `load_course_data` call over any list containing such
a record aborts with an error, emitting no partial result. -/
theorem C5_missing_field_rejected (c : RawCourse)
    (hmiss : c.title = none ∨ c.description = none ∨ c.instructor = none ∨
             c.price = none ∨ c.url = none) :
    (∃ k, processCourse c = .error (.keyError k))
    ∧ ∀ courses, c ∈ courses → ∃ e, load_course_data courses = .error e := by
  have herr : ∃ k, processCourse c = .error (.keyError k) := by
    obtain ⟨t, d, i, p, cur, u⟩ := c
    cases t <;> cases d <;> cases i <;> cases p <;> cases cur <;> cases u <;>
      first
        | exact ⟨"title", rfl⟩
        | exact ⟨"description", rfl⟩
        | exact ⟨"instructor", rfl⟩
        | exact ⟨"price", rfl⟩
        | exact ⟨"curriculum", rfl⟩
        | exact ⟨"url", rfl⟩
        | simp_all
  refine ⟨herr, ?_⟩
  intro courses hc
  induction courses with
  | nil => cases hc
  | cons x xs ih =>
      rcases List.mem_cons.mp hc with rfl | hmem
      · obtain ⟨k, hk⟩ := herr
        refine ⟨.keyError k, ?_⟩
        unfold load_course_data
        rw [hk]
      · obtain ⟨e, he⟩ := ih hmem
        unfold load_course_data
        cases hx : processCourse x with
        | error e2 => exact ⟨e2, rfl⟩
        | ok doc => rw [he]; exact ⟨e, rfl⟩

/-- C5 witness: a record whose `price` key is absent is rejected with a
missing-key error, and loading a list that contains it fails. -/
theorem C5_missing_field_rejected_witness :
    (∃ k, processCourse
        { title := some "T", description := some "D", instructor := some "I",
          price := none, curriculum := some [], url := some "U" }
      = .error (.keyError k))
    ∧ ∀ courses, ({ title := some "T", description := some "D", instructor := some "I",
                    price := none, curriculum := some [], url := some "U" } : RawCourse)
        ∈ courses → ∃ e, load_course_data courses = .error e :=
  C5_missing_field_rejected _ (by simp)

/-- C6: `search_courses` called while `self.qa_chain` is still `None`
raises the uninitialized-chain error (the code's realization of the spec's
`NotInitializedError`) to the caller — the guard runs before the `try`
block, so the error is not converted into a degraded `QueryResult`. -/
theorem C6_uninitialized_raises (sys : CourseSearchSystem) (q : String)
    (h : sys.qa_chain = none) :
    search_courses sys q = .error (.valueError notInitializedMsg) := by
  unfold search_courses search_coursesT
  rw [h]

/-- C6 witness: on a freshly constructed system, `search_courses` raises
for an arbitrary query rather than returning a result. -/
theorem C6_uninitialized_raises_witness :
    search_courses { vector_store := none, qa_chain := none } "learn python"
      = .error (.valueError notInitializedMsg) :=
  C6_uninitialized_raises _ "learn python" rfl

/-- C7: normalization is deterministic — two runs of the per-record
processing on the same record yield the same document, with byte-identical
text. -/
theorem C7_normalize_deterministic (c : RawCourse) (d₁ d₂ : Document)
    (h1 : processCourse c = .ok d₁) (h2 : processCourse c = .ok d₂) :
    d₁.page_content = d₂.page_content ∧ d₁ = d₂ := by
  rw [h1] at h2
  cases h2
  exact ⟨rfl, rfl⟩

/-- C7 witness: the two runs on `sampleRaw` produce the same document. -/
theorem C7_normalize_deterministic_witness :
    sampleDoc.page_content = sampleDoc.page_content ∧ sampleDoc = sampleDoc :=
  C7_normalize_deterministic sampleRaw sampleDoc sampleDoc rfl rfl

/-- C8: the document text produced for a record joins the curriculum
entries with the fixed delimiter `" | "` in their given order (the
characterizing equations of `joinPipe`), placed after the `Curriculum:`
label; an empty curriculum joins to the empty string and the record is
still processed without error. -/
theorem C8_curriculum_join (t d i p u : String) (cur : List String) (doc : Document)
    (h : processCourse
        { title := some t, description := some d, instructor := some i,
          price := some p, curriculum := some cur, url := some u } = .ok doc) :
    (∃ pre post, doc.page_content = pre ++ "\n            Curriculum: " ++ joinPipe cur ++ post)
    ∧ joinPipe [] = ""
    ∧ (∀ x, joinPipe [x] = x)
    ∧ (∀ x y rest, joinPipe (x :: y :: rest) = x ++ " | " ++ joinPipe (y :: rest)) := by
  refine ⟨?_, rfl, fun x => rfl, fun x y rest => rfl⟩
  cases h
  refine ⟨"\n            Title: " ++ t ++ "\n            Description: " ++ d ++
          "\n            Instructor: " ++ i ++ "\n            Price: " ++ p,
          "\n            URL: " ++ u ++ "\n            ", ?_⟩
  simp only [courseContent, string_append_assoc]

/-- C8 witness: a record with an empty curriculum is processed without
error and its text contains `Curriculum: ` followed by the empty join. -/
theorem C8_curriculum_join_witness :
    (∃ pre post,
      (courseContent "T" "D" "I" "P" (joinPipe []) "U") =
        pre ++ "\n            Curriculum: " ++ joinPipe [] ++ post)
    ∧ joinPipe [] = ""
    ∧ (∀ x, joinPipe [x] = x)
    ∧ (∀ x y rest, joinPipe (x :: y :: rest) = x ++ " | " ++ joinPipe (y :: rest)) :=
  C8_curriculum_join "T" "D" "I" "P" "U" []
    { page_content := courseContent "T" "D" "I" "P" (joinPipe []) "U",
      metadata := { title := some "T", url := some "U",
                    price := some "P", instructor := some "I" } }
    rfl

/-- C9: every chunk the splitter produces has length at most the configured
maximum (in particular at most the configured 500 characters), and the
splitter produces at least one chunk for every document, including
documents shorter than the maximum.  (The splitting algorithm is modelled
from the spec: it lives in the external text-splitter library, the
repository only configures it with `chunk_size=500, chunk_overlap=50`.) -/
theorem C9_chunk_invariants :
    (∀ maxSize overlap : Nat, ∀ s : List Char,
        ∀ c ∈ chunkText maxSize overlap s, c.length ≤ maxSize)
    ∧ (∀ s : String, ∀ c ∈ split_text s, c.length ≤ chunk_size)
    ∧ (∀ s : String, 1 ≤ (split_text s).length) := by
  refine ⟨chunkText_length_le, fun s c hc => ?_, fun s => ?_⟩
  · obtain ⟨l, hl, rfl⟩ := List.mem_map.mp hc
    exact chunkText_length_le chunk_size chunk_overlap s.data l hl
  · unfold split_text
    simp only [List.length_map]
    exact List.length_pos.mpr (chunkText_ne_nil chunk_size chunk_overlap s.data)

/-- C9 witness: the single chunk of a short document is within the bound,
and even the empty document yields one chunk. -/
theorem C9_chunk_invariants_witness :
    ("abc" : String).length ≤ chunk_size ∧ 1 ≤ (split_text "").length :=
  ⟨C9_chunk_invariants.2.1 "abc" "abc"
      (by simp [split_text, chunkText, chunk_size, chunk_overlap]),
   C9_chunk_invariants.2.2 ""⟩

/-- C10: `similar_courses` called while `self.vector_store` is still `None`
dereferences the `None` value and fails with an `AttributeError` — an
unguarded failure, not the named initialization guard that
`search_courses` has — before any search call is made (empty call trace),
and in particular never with the `ValueError` an explicit guard would
raise. -/
theorem C10_similar_courses_unguarded (sys : CourseSearchSystem) (t : String) (n : Nat)
    (h : sys.vector_store = none) :
    similar_coursesT sys t n = (.error (.attributeError noneTypeMsg), [])
    ∧ ∀ msg, (similar_coursesT sys t n).1 ≠ .error (.valueError msg) := by
  have hmain : similar_coursesT sys t n = (.error (.attributeError noneTypeMsg), []) := by
    unfold similar_coursesT
    rw [h]
  refine ⟨hmain, fun msg hne => ?_⟩
  rw [hmain] at hne
  cases hne

/-- C10 witness: on a freshly constructed system, `similar_courses` fails
with the attribute error at a concrete query. -/
theorem C10_similar_courses_unguarded_witness :
    similar_coursesT { vector_store := none, qa_chain := none } "Python" 3
      = (.error (.attributeError noneTypeMsg), [])
    ∧ ∀ msg, (similar_coursesT { vector_store := none, qa_chain := none } "Python" 3).1
        ≠ .error (.valueError msg) :=
  C10_similar_courses_unguarded _ "Python" 3 rfl

end RagSearch
